import Mathlib

/-!
Shallow embedding of the connector dispatch / access-token core of the
payment-switch repository:
* `crates/router/src/core/payments/access_token.rs`
* `crates/router/src/connector/wise.rs`
Stateful Rust code is embedded as pure Lean functions over explicit inputs
(the current time, the results of the store/network effects), and every
effectful step the code performs is recorded in an explicit effect trace.
-/

set_option autoImplicit false

namespace Hyperswitch

/-- Access token cached per (merchant, connector); fields as used by
`is_new_access_token_required`: the opaque token value, the declared expiry
duration in seconds, and the optional recorded creation timestamp
(`refresh_token_created_at`). -/
structure AccessToken where
  token : String
  expires : Int
  refresh_token_created_at : Option Int
  deriving DecidableEq, Repr

/-- Normalized connector error (`types::ErrorResponse`): HTTP status code,
code string, human message, optional reason. -/
structure ErrorResponse where
  status_code : Nat
  code : String
  message : String
  reason : Option String
  deriving DecidableEq, Repr

/-- Modelled from the spec: `types::ErrorResponse::default()` is declared
outside `src/`; the spec describes it only as "a generic default-error value"
reused as the "not applicable" sentinel, so its field contents are opaque
placeholders here. Claims compare against this constant itself. -/
def errorResponseDefault : ErrorResponse :=
  { status_code := 0
    code := "default_code"
    message := "default_message"
    reason := none }

/-- Result of one `add_access_token` attempt: the fallible token outcome and
whether this connector uses access tokens at all. -/
structure AddAccessTokenResult where
  access_token_result : Except ErrorResponse (Option AccessToken)
  connector_supports_access_token : Bool

/-- Modelled from the spec: the Call-Action selector (§4.2.1) is declared
outside `src/`; the spec describes it as a two-variant instruction,
Trigger (perform network I/O) or Skip (do not). -/
inductive CallConnectorAction where
  | Trigger
  | Skip
  deriving DecidableEq, Repr

/-- Generic Operation Context (`types::RouterData`), restricted to the fields
the embedded functions read or write: credential descriptor, payment-method
descriptor, the mutable access-token slot, the flow request payload, and the
flow outcome (success payload or normalized error). -/
structure RouterData (Req Res : Type) where
  connector_auth_type : String
  payment_method : String
  access_token : Option AccessToken
  request : Req
  response : Except ErrorResponse Res

/-- `is_new_access_token_required` from `access_token.rs`, with the current
time (`time::OffsetDateTime::now_utc().unix_timestamp()`) passed explicitly:
no cached token means a new one is required; a cached token with a recorded
creation timestamp is stale when `now > created_at + expires`; a cached token
without a creation timestamp is always considered valid. -/
def is_new_access_token_required (now : Int) (old_access_token : Option AccessToken) : Bool :=
  match old_access_token with
  | some access_token =>
    match access_token.refresh_token_created_at with
    | some created_at => decide (now > created_at + access_token.expires)
    | none => false
  | none => true

/-- `update_router_data_with_access_token_result` from `access_token.rs`.
The Rust function mutates `router_data` in place and returns a continuation
boolean; the embedding returns the updated context paired with that boolean. -/
def update_router_data_with_access_token_result {Req Res : Type}
    (add_access_token_result : AddAccessTokenResult)
    (router_data : RouterData Req Res)
    (call_connector_action : CallConnectorAction) :
    RouterData Req Res × Bool :=
  match add_access_token_result.connector_supports_access_token, call_connector_action with
  | true, CallConnectorAction.Trigger =>
    match add_access_token_result.access_token_result with
    | Except.ok access_token => ({ router_data with access_token := access_token }, true)
    | Except.error connector_error =>
      ({ router_data with response := Except.error connector_error }, false)
  | _, _ => (router_data, true)

/-- Fatal (infrastructure) error channel of `add_access_token`
(`errors::ApiErrorResponse`); only the variant the embedded code produces. -/
inductive ApiError where
  | internalServerError
  deriving DecidableEq, Repr

/-- Count of effectful steps performed by one `add_access_token` call:
token-cache reads, refresh sub-flows run, and token-cache write attempts. -/
structure EffectTrace where
  cache_reads : Nat
  refreshes : Nat
  cache_writes : Nat
  deriving DecidableEq, Repr

/-- Explicit inputs standing for the effects `add_access_token` may perform:
the result the token store would return for `get_access_token`, the result
`refresh_connector_auth` would produce if the refresh sub-flow runs, and the
result the store would return for `set_access_token`. -/
structure TokenStoreOracle where
  read : Except Unit (Option AccessToken)
  refresh : Except ApiError (Except ErrorResponse AccessToken)
  write : Except Unit Unit

/-- `add_access_token` from `access_token.rs`, with the connector-support
check, the current time, and all effects made explicit.  Mirrors the source:
unsupported connectors short-circuit to the default-error sentinel with
`connector_supports_access_token = false` before any store access; otherwise
the cache is read (read failure becomes an internal server error); a fresh
cached token is returned as-is; a stale or absent token triggers the refresh
sub-flow, whose successful token is written to the store with the write
result discarded (`let _ = store.set_access_token(...)`). -/
def add_access_token (supports : Bool) (now : Int) (o : TokenStoreOracle) :
    Except ApiError AddAccessTokenResult × EffectTrace :=
  if supports then
    match o.read with
    | Except.error _ => (Except.error ApiError.internalServerError, ⟨1, 0, 0⟩)
    | Except.ok old_access_token =>
      if is_new_access_token_required now old_access_token then
        match o.refresh with
        | Except.error e => (Except.error e, ⟨1, 1, 0⟩)
        | Except.ok (Except.error connector_error) =>
          (Except.ok ⟨Except.error connector_error, true⟩, ⟨1, 1, 0⟩)
        | Except.ok (Except.ok access_token) =>
          (Except.ok ⟨Except.ok (some access_token), true⟩, ⟨1, 1, 1⟩)
      else
        (Except.ok ⟨Except.ok old_access_token, true⟩, ⟨1, 0, 0⟩)
  else
    (Except.ok ⟨Except.error errorResponseDefault, false⟩, ⟨0, 0, 0⟩)

/-- Connector error taxonomy (`errors::ConnectorError`), the variants the
embedded `wise.rs` code produces. -/
inductive ConnectorError where
  | FailedToObtainAuthType
  | MissingRequiredField (field_name : String)
  | RequestEncodingFailed
  | ResponseDeserializationFailed
  | ResponseHandlingFailed
  | WebhooksNotImplemented
  deriving DecidableEq, Repr

/-- One entry of the Wise error schema's sub-error list, as the fields
`build_error_response` reads (`e.code`, `e.message`). -/
structure WiseSubError where
  code : String
  message : String
  deriving DecidableEq, Repr

/-- The Wise error schema (`wise::ErrorResponse`) as the fields
`build_error_response` reads: an optional numeric top-level status, an
optional list of sub-errors, and an optional top-level message. -/
structure WiseErrorResponse where
  status : Option Int
  errors : Option (List WiseSubError)
  message : Option String
  deriving DecidableEq, Repr

/-- `Wise::build_error_response` from `wise.rs`, with the transport status
code and the body-parse outcome passed explicitly.  A body that fails to
parse into the Wise error schema is a fatal `ResponseDeserializationFailed`;
otherwise a non-empty sub-error list yields the first entry's code and
message verbatim, and the fallback uses the stringified top-level status
(defaulting the absent status to 0) as code and the top-level message
(defaulting to the empty string) as message.  Every produced normalized
error carries the transport's original status code. -/
def build_error_response (status_code : Nat)
    (parse_result : Except ConnectorError WiseErrorResponse) :
    Except ConnectorError ErrorResponse :=
  match parse_result with
  | Except.error _ => Except.error ConnectorError.ResponseDeserializationFailed
  | Except.ok response =>
    let default_status := toString (response.status.getD 0)
    match response.errors with
    | some errs =>
      match errs with
      | e :: _ =>
        Except.ok
          { status_code := status_code
            code := e.code
            message := e.message
            reason := none }
      | [] =>
        Except.ok
          { status_code := status_code
            code := default_status
            message := response.message.getD ""
            reason := none }
    | none =>
      Except.ok
        { status_code := status_code
          code := default_status
          message := response.message.getD ""
          reason := none }

/-- Payout request payload (`types::PayoutsData`), restricted to the fields
the embedded `wise.rs` payout code reads or writes. -/
structure PayoutsData where
  quote_id : Option String
  connector_payout_id : Option String
  deriving DecidableEq, Repr

/-- Payout response payload (`types::PayoutsResponseData`), restricted to
the field `execute_pretasks` reads (`resp.connector_payout_id`). -/
structure PayoutsResponseData where
  connector_payout_id : String
  deriving DecidableEq, Repr

/-- The payout Operation Context (`types::PayoutsRouterData`). -/
abbrev PayoutsRouterData := RouterData PayoutsData PayoutsResponseData

/-- `execute_pretasks` of the Wise `PCreate` integration from `wise.rs`.
The single quote sub-call (`execute_connector_processing_step` on the
`PoQuote` integration, Call-Action = Trigger) is passed in as its result;
the returned `Nat` counts dependent network calls issued, and is `1` in
every branch because the source invokes the quote step exactly once,
unconditionally.  A fatal sub-call error propagates via `?`; on a quote
context whose outcome is a success payload, the parent request's `quote_id`
is set to the quote response's `connector_payout_id`; a quote context whose
outcome is a normalized error leaves the parent unchanged. -/
def execute_pretasks_pcreate
    (quote_step : Except ConnectorError PayoutsRouterData)
    (router_data : PayoutsRouterData) :
    Except ConnectorError PayoutsRouterData × Nat :=
  match quote_step with
  | Except.error e => (Except.error e, 1)
  | Except.ok quote_router_resp =>
    match quote_router_resp.response with
    | Except.ok resp =>
      (Except.ok
        { router_data with
          request := { router_data.request with quote_id := some resp.connector_payout_id } }, 1)
    | Except.error _ => (Except.ok router_data, 1)

/-- `get_url` of the Wise `PCreate` integration from `wise.rs`:
always the fixed transfers endpoint `base_url ++ "/v1/transfers"`,
independent of the request payload. -/
def get_url_pcreate (base_url : String) (_req : PayoutsRouterData) :
    Except ConnectorError String :=
  Except.ok (base_url ++ "/v1/transfers")

/-- Modelled from the spec: `services::execute_connector_processing_step`
(the Call Orchestrator) is declared outside `src/`; per §4.2/§4.3 it runs
the adapter's pretasks first and any pretask failure short-circuits to a
terminal error before the main build/send/parse cycle.  The main cycle is
passed as a function and the returned `Nat` counts main-flow invocations. -/
def run_payout_create
    (quote_step : Except ConnectorError PayoutsRouterData)
    (main_cycle : PayoutsRouterData → Except ConnectorError PayoutsRouterData)
    (router_data : PayoutsRouterData) :
    Except ConnectorError PayoutsRouterData × Nat :=
  match (execute_pretasks_pcreate quote_step router_data).1 with
  | Except.error e => (Except.error e, 0)
  | Except.ok rd => (main_cycle rd, 1)

/-- Substring containment on strings, used to state whether a resolved URL
embeds an identifier. -/
def containsSubstr (hay needle : String) : Bool :=
  (List.range (hay.data.length + 1)).any
    (fun i => needle.data.isPrefixOf (hay.data.drop i))

/-- C1: the refresh-need decision: no cached token means refresh is
required; a cached token with a recorded creation timestamp requires refresh
iff the current time exceeds the creation timestamp plus the declared expiry
duration; a cached token with no recorded creation timestamp never requires
refresh. -/
theorem is_new_access_token_required_spec :
    (∀ now : Int, is_new_access_token_required now none = true) ∧
    (∀ (now : Int) (t : AccessToken) (c : Int),
        t.refresh_token_created_at = some c →
        (is_new_access_token_required now (some t) = true ↔ now > c + t.expires)) ∧
    (∀ (now : Int) (t : AccessToken),
        t.refresh_token_created_at = none →
        is_new_access_token_required now (some t) = false) := by
  refine ⟨fun now => rfl, fun now t c h => ?_, fun now t h => ?_⟩
  · simp [is_new_access_token_required, h]
  · simp [is_new_access_token_required, h]

/-- Witness for C1 at concrete tokens and times. -/
theorem is_new_access_token_required_spec_witness :
    is_new_access_token_required 0 none = true ∧
    (is_new_access_token_required 200 (some ⟨"tok", 100, some 50⟩) = true ↔ (200 : Int) > 50 + 100) ∧
    is_new_access_token_required 200 (some ⟨"tok", 100, none⟩) = false :=
  ⟨is_new_access_token_required_spec.1 0,
   is_new_access_token_required_spec.2.1 200 ⟨"tok", 100, some 50⟩ 50 rfl,
   is_new_access_token_required_spec.2.2 200 ⟨"tok", 100, none⟩ rfl⟩

/-- C10: at the exact expiry instant (`now = created_at + expires`) the
refresh-need decision is false; refresh is required only strictly after the
expiry instant. -/
theorem refresh_not_required_at_expiry_instant
    (t : AccessToken) (c : Int) (h : t.refresh_token_created_at = some c) :
    is_new_access_token_required (c + t.expires) (some t) = false := by
  simp [is_new_access_token_required, h]

/-- Witness for C10 at a concrete token. -/
theorem refresh_not_required_at_expiry_instant_witness :
    is_new_access_token_required ((50 : Int) + 100) (some ⟨"tok", 100, some 50⟩) = false :=
  refresh_not_required_at_expiry_instant ⟨"tok", 100, some 50⟩ 50 rfl

/-- C2: when the merge is applicable (connector supports access tokens and
the Call-Action is Trigger), a successful token outcome sets the context's
access-token slot and reports continue (true); a failed token outcome sets
the context's outcome to that failure and reports stop (false). -/
theorem update_router_data_applicable_cases {Req Res : Type}
    (r : AddAccessTokenResult) (rd : RouterData Req Res)
    (h : r.connector_supports_access_token = true) :
    (∀ t, r.access_token_result = Except.ok t →
        update_router_data_with_access_token_result r rd CallConnectorAction.Trigger =
          ({ rd with access_token := t }, true)) ∧
    (∀ e, r.access_token_result = Except.error e →
        update_router_data_with_access_token_result r rd CallConnectorAction.Trigger =
          ({ rd with response := Except.error e }, false)) := by
  obtain ⟨res, sup⟩ := r
  simp only at h
  subst h
  constructor
  · intro t ht
    simp only at ht
    subst ht
    rfl
  · intro e he
    simp only at he
    subst he
    rfl

/-- Witness for C2: a concrete applicable merge with a successful token. -/
theorem update_router_data_applicable_cases_witness :
    @update_router_data_with_access_token_result Unit Unit
        ⟨Except.ok (some ⟨"tok", 100, none⟩), true⟩
        ⟨"auth", "card", none, (), Except.error errorResponseDefault⟩
        CallConnectorAction.Trigger =
      (⟨"auth", "card", some ⟨"tok", 100, none⟩, (), Except.error errorResponseDefault⟩, true) :=
  (update_router_data_applicable_cases
      ⟨Except.ok (some ⟨"tok", 100, none⟩), true⟩
      ⟨"auth", "card", none, (), Except.error errorResponseDefault⟩ rfl).1
    (some ⟨"tok", 100, none⟩) rfl

/-- C3: when the connector does not support access tokens or the Call-Action
is Skip, the merge leaves the Operation Context unchanged and reports
continue (true). -/
theorem update_router_data_not_applicable {Req Res : Type}
    (r : AddAccessTokenResult) (rd : RouterData Req Res) (action : CallConnectorAction)
    (h : r.connector_supports_access_token = false ∨ action = CallConnectorAction.Skip) :
    update_router_data_with_access_token_result r rd action = (rd, true) := by
  obtain ⟨res, sup⟩ := r
  rcases h with h | h
  · simp only at h
    subst h
    cases action <;> rfl
  · subst h
    cases sup <;> rfl

/-- Witness for C3: unsupported connector with Call-Action Trigger. -/
theorem update_router_data_not_applicable_witness :
    @update_router_data_with_access_token_result Unit Unit
        ⟨Except.error errorResponseDefault, false⟩
        ⟨"auth", "card", none, (), Except.error errorResponseDefault⟩
        CallConnectorAction.Trigger =
      (⟨"auth", "card", none, (), Except.error errorResponseDefault⟩, true) :=
  update_router_data_not_applicable
    ⟨Except.error errorResponseDefault, false⟩
    ⟨"auth", "card", none, (), Except.error errorResponseDefault⟩
    CallConnectorAction.Trigger (Or.inl rfl)

/-- C4: a parsed error schema with a non-empty sub-error list yields the
first entry's code and message verbatim, and every normalized result
produced by the Error Normalizer carries the transport's original HTTP
status code, in every fallback branch. -/
theorem build_error_response_first_sub_error_and_status :
    (∀ (sc : Nat) (resp : WiseErrorResponse) (e : WiseSubError) (rest : List WiseSubError),
        resp.errors = some (e :: rest) →
        build_error_response sc (Except.ok resp) =
          Except.ok { status_code := sc, code := e.code, message := e.message, reason := none }) ∧
    (∀ (sc : Nat) (pr : Except ConnectorError WiseErrorResponse) (r : ErrorResponse),
        build_error_response sc pr = Except.ok r → r.status_code = sc) := by
  constructor
  · intro sc resp e rest h
    simp [build_error_response, h]
  · intro sc pr r h
    match pr with
    | Except.error _ => simp [build_error_response] at h
    | Except.ok resp =>
      rcases hre : resp.errors with _ | errs
      · simp [build_error_response, hre] at h
        simp [← h]
      · rcases errs with _ | ⟨e, rest⟩
        · simp [build_error_response, hre] at h
          simp [← h]
        · simp [build_error_response, hre] at h
          simp [← h]

/-- Witness for C4: the spec's concrete example, first sub-error wins and
the transport status 7 is preserved. -/
theorem build_error_response_first_sub_error_and_status_witness :
    build_error_response 7 (Except.ok ⟨some 7, some [⟨"c1", "m1"⟩], none⟩) =
      Except.ok ⟨7, "c1", "m1", none⟩ ∧
    (⟨7, "c1", "m1", none⟩ : ErrorResponse).status_code = 7 :=
  ⟨build_error_response_first_sub_error_and_status.1 7
      ⟨some 7, some [⟨"c1", "m1"⟩], none⟩ ⟨"c1", "m1"⟩ [] rfl,
   build_error_response_first_sub_error_and_status.2 7
      (Except.ok ⟨some 7, some [⟨"c1", "m1"⟩], none⟩) ⟨7, "c1", "m1", none⟩ rfl⟩

/-- Counterexample to C5 as stated: a parsed schema with no sub-errors, no
top-level message and no top-level status normalizes to a result whose
message is the EMPTY string (the placeholder message is `""`), so the
normalized message is not "never empty". -/
theorem build_error_response_empty_message_cex :
    build_error_response 7 (Except.ok ⟨none, none, none⟩) =
      Except.ok ⟨7, "0", "", none⟩ ∧
    ((⟨7, "0", "", none⟩ : ErrorResponse).message).length = 0 := by
  exact ⟨rfl, rfl⟩

/-- C5 (amended): every accepted raw error response produces a normalized
error whose code and message are always populated as plain (non-optional)
strings, by this exact fallback policy: a non-empty sub-error list gives the
first entry's code and message verbatim; otherwise the message falls back to
the top-level message if present and to the empty string otherwise, and the
code falls back to the decimal rendering of the top-level status, with an
absent status rendered as 0. -/
theorem build_error_response_fallback_policy :
    ∀ (sc : Nat) (resp : WiseErrorResponse),
      build_error_response sc (Except.ok resp) =
        Except.ok
          { status_code := sc
            code :=
              match resp.errors with
              | some (e :: _) => e.code
              | _ => toString (resp.status.getD 0)
            message :=
              match resp.errors with
              | some (e :: _) => e.message
              | _ => resp.message.getD ""
            reason := none } := by
  intro sc resp
  rcases resp with ⟨st, errs, msg⟩
  rcases errs with _ | ⟨_ | ⟨e, rest⟩⟩ <;> rfl

/-- C6: a fatal failure of the quote pretask sub-call propagates out of the
pretask step unchanged and aborts the parent payout-create operation with
zero main-flow network calls, for every main cycle and every parent
context. -/
theorem payout_create_pretask_failure_aborts :
    ∀ (e : ConnectorError)
      (main_cycle : PayoutsRouterData → Except ConnectorError PayoutsRouterData)
      (rd : PayoutsRouterData),
      (execute_pretasks_pcreate (Except.error e) rd).1 = Except.error e ∧
      run_payout_create (Except.error e) main_cycle rd = (Except.error e, 0) := by
  intro e m rd
  exact ⟨rfl, rfl⟩

/-- Counterexample to C7 as stated: after a successful quote pretask whose
parsed response carries identifier "q123", the parent's request payload does
record the identifier, but the parent's resolved URL is the fixed transfers
endpoint and does NOT embed the identifier obtained from the dependent
call. -/
theorem payout_create_url_lacks_quote_id :
    (execute_pretasks_pcreate
        (Except.ok ⟨"auth", "bank", none, ⟨none, none⟩, Except.ok ⟨"q123"⟩⟩)
        ⟨"auth", "bank", none, ⟨none, none⟩, Except.error errorResponseDefault⟩).1 =
      Except.ok ⟨"auth", "bank", none, ⟨some "q123", none⟩, Except.error errorResponseDefault⟩ ∧
    get_url_pcreate "https://wise.example/"
        ⟨"auth", "bank", none, ⟨some "q123", none⟩, Except.error errorResponseDefault⟩ =
      Except.ok "https://wise.example//v1/transfers" ∧
    containsSubstr "https://wise.example//v1/transfers" "q123" = false := by
  refine ⟨rfl, rfl, by decide⟩

/-- C7 (amended): with no prior quote identifier, the payout-create pretask
issues exactly one dependent network call and, on a successful quote
outcome, mutates the parent request payload in place by setting its quote
identifier from the dependent call's parsed response; the parent's resolved
URL is the fixed transfers endpoint `base_url ++ "/v1/transfers"` — the
identifier is consumed by the request-body builder, not embedded in the
URL. -/
theorem payout_create_pretask_chaining
    (rd quote_ctx : PayoutsRouterData) (resp : PayoutsResponseData) (base_url : String)
    (_hprior : rd.request.quote_id = none)
    (hresp : quote_ctx.response = Except.ok resp) :
    (execute_pretasks_pcreate (Except.ok quote_ctx) rd).2 = 1 ∧
    (execute_pretasks_pcreate (Except.ok quote_ctx) rd).1 =
      Except.ok
        { rd with request := { rd.request with quote_id := some resp.connector_payout_id } } ∧
    (∀ rd2 : PayoutsRouterData,
        get_url_pcreate base_url rd2 = Except.ok (base_url ++ "/v1/transfers")) := by
  refine ⟨?_, ?_, fun rd2 => rfl⟩ <;>
    simp [execute_pretasks_pcreate, hresp]

/-- Witness for C7 (amended) at a concrete parent context and quote
response. -/
theorem payout_create_pretask_chaining_witness :
    (execute_pretasks_pcreate
        (Except.ok ⟨"auth", "bank", none, ⟨none, none⟩, Except.ok ⟨"q77"⟩⟩)
        ⟨"auth", "bank", none, ⟨none, none⟩, Except.error errorResponseDefault⟩).2 = 1 ∧
    (execute_pretasks_pcreate
        (Except.ok ⟨"auth", "bank", none, ⟨none, none⟩, Except.ok ⟨"q77"⟩⟩)
        ⟨"auth", "bank", none, ⟨none, none⟩, Except.error errorResponseDefault⟩).1 =
      Except.ok ⟨"auth", "bank", none, ⟨some "q77", none⟩, Except.error errorResponseDefault⟩ ∧
    (∀ rd2 : PayoutsRouterData,
        get_url_pcreate "https://wise.example/" rd2 =
          Except.ok ("https://wise.example/" ++ "/v1/transfers")) :=
  payout_create_pretask_chaining
    ⟨"auth", "bank", none, ⟨none, none⟩, Except.error errorResponseDefault⟩
    ⟨"auth", "bank", none, ⟨none, none⟩, Except.ok ⟨"q77"⟩⟩
    ⟨"q77"⟩ "https://wise.example/" rfl rfl

/-- C8: once a token refresh succeeds, the result of the cache-persistence
write is irrelevant: for every write outcome (including failure) the manager
returns the freshly obtained token in a successful Add-Access-Token
Result. -/
theorem add_access_token_write_failure_not_propagated
    (now : Int) (old : Option AccessToken) (tok : AccessToken) (w : Except Unit Unit)
    (hstale : is_new_access_token_required now old = true) :
    (add_access_token true now ⟨Except.ok old, Except.ok (Except.ok tok), w⟩).1 =
      Except.ok ⟨Except.ok (some tok), true⟩ := by
  simp [add_access_token, hstale]

/-- Witness for C8: a failing cache write after a successful refresh still
returns the fresh token. -/
theorem add_access_token_write_failure_not_propagated_witness :
    (add_access_token true 1
        ⟨Except.ok none, Except.ok (Except.ok ⟨"t", 10, none⟩), Except.error ()⟩).1 =
      Except.ok ⟨Except.ok (some ⟨"t", 10, none⟩), true⟩ :=
  add_access_token_write_failure_not_propagated 1 none ⟨"t", 10, none⟩ (Except.error ()) rfl

/-- C9: the access-token manager's state machine: an unsupported connector
yields the default-error sentinel with supported=false, with no cache read,
no refresh and no write; a supported connector with a fresh cached token
returns the cached token unchanged after exactly one cache read and no
refresh; and the refresh sub-flow runs only when the cache read succeeded
and the cached token is stale or absent. -/
theorem add_access_token_state_machine :
    (∀ (now : Int) (o : TokenStoreOracle),
        add_access_token false now o =
          (Except.ok ⟨Except.error errorResponseDefault, false⟩, ⟨0, 0, 0⟩)) ∧
    (∀ (now : Int) (o : TokenStoreOracle) (old : Option AccessToken),
        o.read = Except.ok old →
        is_new_access_token_required now old = false →
        add_access_token true now o = (Except.ok ⟨Except.ok old, true⟩, ⟨1, 0, 0⟩)) ∧
    (∀ (now : Int) (o : TokenStoreOracle),
        0 < (add_access_token true now o).2.refreshes →
        ∃ old : Option AccessToken,
          o.read = Except.ok old ∧ is_new_access_token_required now old = true) := by
  refine ⟨fun now o => rfl, fun now o old hr hf => ?_, fun now o h => ?_⟩
  · simp [add_access_token, hr, hf]
  · rcases hre : o.read with u | old
    · simp [add_access_token, hre] at h
    · by_cases hreq : is_new_access_token_required now old = true
      · exact ⟨old, rfl, hreq⟩
      · rw [Bool.not_eq_true] at hreq
        simp [add_access_token, hre, hreq] at h

/-- Witness for C9: each branch of the state machine at concrete inputs. -/
theorem add_access_token_state_machine_witness :
    add_access_token false 0
        ⟨Except.ok none, Except.error ApiError.internalServerError, Except.ok ()⟩ =
      (Except.ok ⟨Except.error errorResponseDefault, false⟩, ⟨0, 0, 0⟩) ∧
    add_access_token true 0
        ⟨Except.ok (some ⟨"t", 10, none⟩), Except.error ApiError.internalServerError,
          Except.ok ()⟩ =
      (Except.ok ⟨Except.ok (some ⟨"t", 10, none⟩), true⟩, ⟨1, 0, 0⟩) ∧
    (∃ old : Option AccessToken,
        (⟨Except.ok none, Except.ok (Except.ok ⟨"t", 10, none⟩),
            Except.ok ()⟩ : TokenStoreOracle).read = Except.ok old ∧
        is_new_access_token_required 0 old = true) :=
  ⟨add_access_token_state_machine.1 0
      ⟨Except.ok none, Except.error ApiError.internalServerError, Except.ok ()⟩,
   add_access_token_state_machine.2.1 0
      ⟨Except.ok (some ⟨"t", 10, none⟩), Except.error ApiError.internalServerError, Except.ok ()⟩
      (some ⟨"t", 10, none⟩) rfl rfl,
   add_access_token_state_machine.2.2 0
      ⟨Except.ok none, Except.ok (Except.ok ⟨"t", 10, none⟩), Except.ok ()⟩ (by decide)⟩

end Hyperswitch
